import Mathlib

/-!
Shallow embedding of the share/middleware repository (src/lib/useragent.js).

The file models the two objects of the repository:

* the Middleware dispatcher (action-keyed middleware chains, doc/op filter
  chains, the live op-stream wrapper, the bulk fan-out helper), and
* the UserAgent session facade (connect gate, per-operation pipeline
  trigger -> backend -> filter).

JavaScript values that the layer carries opaquely (snapshots, op records,
queries, options) are modelled by a type parameter V; middleware and filter
errors by a type parameter E.  In-place mutation of requests, documents and
op arrays is modelled by value passing: a mutating step takes the value and
returns the updated value.  Asynchronous callbacks are modelled by return
values; the one scheduling boundary the source forces (process.nextTick in
Middleware.trigger) is modelled explicitly by the Proc type below, and the
nondeterministic completion order of the bulk fan-out is modelled by an
explicit event trace fed to the fan-out state machine.
-/

variable {V E D : Type}

/-- A live operation event source handed out by the backend (the readable
stream of a subscription).  `events` is the ordered sequence of operation
records it emits; `destroyCount` counts how many times `stream.destroy()`
has been invoked on it. -/
structure OpStream (V : Type) where
  events : List V := []
  destroyCount : Nat := 0

/-- `stream.destroy()` on the underlying source stream. -/
def OpStream.destroy (s : OpStream V) : OpStream V :=
  { s with destroyCount := s.destroyCount + 1 }

/-- The options object passed to `submit`.  The source stores the rewritten
channel prefix into it (`options.channelPrefix = action.channelPrefix`);
the field is named `channelPre` here (source name: channelPrefix). -/
structure SubmitOptions (V : Type) where
  channelPre : Option V := none

/-- The event emitter returned by `backend.query`: an initial result list
(each element carries its docName) and an `extra` side channel.  The live
`diff`/`extra` event wiring of the wrapped emitter is not modelled; no claim
refers to it. -/
structure QueryEmitter (V : Type) where
  data : List (String × V) := []
  extra : Option V := none

/-- The opaque storage backend (livedb).  Collection and docName arguments
are `Option String` because the JavaScript layer can pass `undefined` through
(a request whose `collection` field was never set).  Each operation either
fails with an error E or succeeds with its result. -/
structure Backend (V E : Type) where
  fetch : Option String → Option String → Except E (Option V) := fun _ _ => .ok none
  bulkFetch : List (String × List String) →
      Except E (List (String × List (String × V))) := fun _ => .ok []
  getOps : Option String → Option String → Option Nat → Option Nat →
      Except E (List V) := fun _ _ _ _ => .ok []
  subscribe : Option String → Option String → Option Nat →
      Except E (OpStream V) := fun _ _ _ => .ok {}
  bulkSubscribe : List (String × List (String × Nat)) →
      Except E (List (String × List (String × OpStream V))) := fun _ => .ok []
  fetchAndSubscribe : Option String → Option String →
      Except E (V × OpStream V)
  submit : Option String → Option String → Option V → SubmitOptions V →
      Except E (Nat × List V × Option V)
  queryFetch : Option String → Option V → Option V →
      Except E (Option (List (String × V)) × Option V) := fun _ _ _ => .ok (none, none)
  query : Option String → Option V → Option V →
      Except E (QueryEmitter V) := fun _ _ _ => .ok {}

/-- The mutable request object threaded through the middleware chain.
`Middleware.trigger` merges `agent`, `action`, `backend` and (if truthy)
`collection`/`docName` into the action-specific payload object supplied by
the UserAgent method.  The agent and backend back-references are modelled as
presence flags.  Payload fields of all actions live side by side, as in the
untyped JavaScript object: `start`/`stop` for get ops (source field name for
`stop` is `end`, a Lean keyword), `version` for subscribe, `requests` for
bulk fetch, `bsRequests` for bulk subscribe (source name: requests),
`opData`/`channelPre`/`snapshot` for submit (source name for `channelPre` is
channelPrefix), `query`/`fetchFlag`/`options` for queries (source name for
`fetchFlag` is fetch), `stream`/`initialReq` for connect. -/
structure Request (V : Type) where
  action : String := ""
  agentSet : Bool := false
  backendSet : Bool := false
  collection : Option String := none
  docName : Option String := none
  start : Option Nat := none
  stop : Option Nat := none
  version : Option Nat := none
  requests : Option (List (String × List String)) := none
  bsRequests : Option (List (String × List (String × Nat))) := none
  opData : Option V := none
  channelPre : Option V := none
  snapshot : Option V := none
  query : Option V := none
  fetchFlag : Option Bool := none
  options : Option V := none
  stream : Option V := none
  initialReq : Option V := none

/-- JavaScript truthiness of the collection/docName arguments to trigger:
`if (collection) request.collection = collection` skips null/undefined and
the empty string. -/
def strTruthy : Option String → Bool
  | some s => !s.isEmpty
  | none => false

/-- One middleware entry.  The source distinguishes entries by arity
(`middleware.length`): an arity-1 entry `function(request)` runs
synchronously, may mutate the request and cannot veto (next() is called for
it); an arity-2 entry `function(request, next)` may mutate the request and
signals `next(err)`, modelled as the returned `Option E`. -/
inductive MwFn (V E : Type) where
  | auto (f : Request V → Request V)
  | withNext (f : Request V → Request V × Option E)

/-- What `runMethod` delivers to its callback: either the first error
signalled by a middleware step, or `(null, backend, request)` on chain
completion. -/
inductive MethodResult (V E : Type) where
  | err (e : E)
  | ok (backend : Backend V E) (request : Request V)

/-- A doc/op filter entry: receives `(collection, docName, data)`, may mutate
`data` (the returned value) and signals `next(err)` via the second
component.  For doc filters the data is one snapshot (D = V); for op filters
it is the op array handed to `runOpFilters` (D = List V). -/
def Flt (D E : Type) : Type := Option String → Option String → D → D × Option E

/-- The middleware object wrapping one livedb backend.  `methods` maps an
action name to its registered middleware list; the empty-string key is the
all-actions list (source: `this.methods = {'':[]}`). -/
structure Middleware (V E : Type) where
  backend : Backend V E
  methods : String → List (MwFn V E) := fun _ => []
  docFilters : List (Flt V E) := []
  opFilters : List (Flt (List V) E) := []

/-- `Middleware.prototype.use`: append middleware to an action's list (the
empty string is the all-actions list).  Registration against the bare
`fetch`/`subscribe` actions throws a configuration error. -/
def Middleware.use (m : Middleware V E) (action : String) (mw : MwFn V E) :
    Except String (Middleware V E) :=
  if action = "fetch" || action = "subscribe" then
    .error "fetch and subscribe middleware not implemented - add 'bulk fetch' or 'bulk subscribe' instead"
  else
    .ok { m with methods := fun a =>
            if a = action then m.methods a ++ [mw] else m.methods a }

/-- `Middleware.prototype.filter`: append a doc filter. -/
def Middleware.filter (m : Middleware V E) (fn : Flt V E) : Middleware V E :=
  { m with docFilters := m.docFilters ++ [fn] }

/-- `Middleware.prototype.filterOps`: append an op filter. -/
def Middleware.filterOps (m : Middleware V E) (fn : Flt (List V) E) : Middleware V E :=
  { m with opFilters := m.opFilters ++ [fn] }

/-- `Middleware.prototype._runFilters`: async.eachSeries over the filter
list.  Filters run sequentially in list order; the first one signalling an
error stops the chain and the callback receives `(error, null)`; if all
succeed the callback receives `(null, data)` with the mutated data.  The
`Except` result encodes the callback pair; the second component counts how
many filters were actually invoked. -/
def runFiltersGo (filters : List (Flt D E)) (collection docName : Option String)
    (data : D) : Except E D × Nat :=
  match filters with
  | [] => (.ok data, 0)
  | f :: rest =>
    match f collection docName data with
    | (_, some e) => (.error e, 1)
    | (data', none) =>
      let out := runFiltersGo rest collection docName data'
      (out.1, out.2 + 1)

/-- `Middleware.prototype.runDocFilters`. -/
def Middleware.runDocFilters (m : Middleware V E) (collection docName : Option String)
    (data : V) : Except E V × Nat :=
  runFiltersGo m.docFilters collection docName data

/-- `Middleware.prototype.runOpFilters` (data is the op array). -/
def Middleware.runOpFilters (m : Middleware V E) (collection docName : Option String)
    (ops : List V) : Except E (List V) × Nat :=
  runFiltersGo m.opFilters collection docName ops

/-- One middleware step of `runMethod.next`: an arity-1 entry is invoked and
`next()` is called for it unconditionally (it can never signal an error); an
arity-2 entry signals `next(err)` itself. -/
def runStep (mw : MwFn V E) (r : Request V) : Request V × Option E :=
  match mw with
  | .auto f => (f r, none)
  | .withNext f => f r

/-- `Middleware.prototype.runMethod`, instrumented with the list of
middleware entries actually executed, in execution order.  The middleware
list is the action-specific list concatenated with the all-actions list;
the first step signalling an error stops the chain and delivers the error
with no backend/request payload. -/
def runMethodGo (backend : Backend V E) :
    List (MwFn V E) → Request V → MethodResult V E × List (MwFn V E)
  | [], r => (.ok backend r, [])
  | mw :: rest, r =>
    match runStep mw r with
    | (r', none) =>
      let out := runMethodGo backend rest r'
      (out.1, mw :: out.2)
    | (_, some e) => (.err e, [mw])

/-- `runMethod` on the middleware object: runs the concatenation of the
action-specific and the all-actions lists (source:
`(this.methods[request.action] || []).concat(this.methods[''])`). -/
def Middleware.runMethod (m : Middleware V E) (request : Request V) :
    MethodResult V E × List (MwFn V E) :=
  runMethodGo m.backend (m.methods request.action ++ m.methods "") request

/-- Request construction performed by `Middleware.prototype.trigger`:
`request.agent = agent; request.action = action;` then `collection` and
`docName` only if truthy, then `request.backend = this.backend`. -/
def Middleware.buildRequest (_m : Middleware V E) (action : String)
    (collection docName : Option String) (request : Request V) : Request V :=
  { request with
      agentSet := true
      action := action
      collection := if strTruthy collection then collection else request.collection
      docName := if strTruthy docName then docName else request.docName
      backendSet := true }

/-- A computation whose completion may be deferred to later scheduler turns:
`done` completes on the current turn, `nextTick` resumes on a later turn.
This models `process.nextTick`. -/
inductive Proc (α : Type) where
  | done (a : α)
  | nextTick (k : Unit → Proc α)

/-- Run a Proc with a budget of scheduler turns: with fuel 0 only work of the
current (synchronous) turn is observed. -/
def Proc.runFor {α : Type} : Nat → Proc α → Option α
  | _, .done a => some a
  | 0, .nextTick _ => none
  | n + 1, .nextTick k => Proc.runFor n (k ())

/-- `Middleware.prototype.trigger`: builds the request and defers
`runMethod` (and hence every callback delivery) to the next scheduler turn
via `process.nextTick`. -/
def Middleware.triggerProc (m : Middleware V E) (action : String)
    (collection docName : Option String) (request : Request V) :
    Proc (MethodResult V E × List (MwFn V E)) :=
  Proc.nextTick (fun _ =>
    Proc.done (m.runMethod (m.buildRequest action collection docName request)))

/-- The value a trigger call eventually delivers (what `triggerProc`
produces once its deferred turn runs).  The UserAgent methods below are
written against this value. -/
def Middleware.triggerOutcome (m : Middleware V E) (action : String)
    (collection docName : Option String) (request : Request V) :
    MethodResult V E × List (MwFn V E) :=
  m.runMethod (m.buildRequest action collection docName request)

/-- First error in a list of per-invocation outcomes (`none` = success). -/
def firstErr : List (Option E) → Option E
  | [] => none
  | some e :: _ => some e
  | none :: rest => firstErr rest

/-- One entry forwarded by the wrapped op stream: either the filtered op
record pushed as `data[0]` of the filtered array (none when the filters
emptied the array - JavaScript undefined), or the in-band error wrapper
object the source pushes when the op filter chain rejects the event. -/
inductive StreamEntry (V E : Type) where
  | event (v : Option V)
  | errorWrapper (e : E)

/-- The transform step of `wrapOpStream` for one incoming event: run the op
filter chain on the singleton array `[data]`; on success push the first
element of the filtered array, on filter error push the error wrapper. -/
def streamTransformOne (m : Middleware V E) (collection docName : Option String)
    (data : V) : StreamEntry V E :=
  match (m.runOpFilters collection docName [data]).1 with
  | .error e => .errorWrapper e
  | .ok filtered => .event filtered.head?

/-- The sequential processing loop of the passthrough Transform stream: one
event in flight at a time, each incoming event appends exactly one pushed
entry (the transform always pushes once and then calls its callback). -/
def passthroughProcess (m : Middleware V E) (collection docName : Option String) :
    List V → List (StreamEntry V E) → List (StreamEntry V E)
  | [], acc => acc
  | e :: rest, acc =>
      passthroughProcess m collection docName rest
        (acc ++ [streamTransformOne m collection docName e])

/-- The wrapper stream returned by `wrapOpStream`: it keeps a reference to
the wrapped source and exposes the pushed (forwarded) entries. -/
structure Passthrough (V E : Type) where
  source : OpStream V
  pushed : List (StreamEntry V E)

/-- `Middleware.prototype.wrapOpStream`: pipe the source through the
transform; the forwarded entries are the sequential processing of the
source's events. -/
def Middleware.wrapOpStream (m : Middleware V E) (collection docName : Option String)
    (stream : OpStream V) : Passthrough V E :=
  { source := stream
    pushed := passthroughProcess m collection docName stream.events [] }

/-- `destroyPassthrough`, the destroy method installed on the wrapper:
its body is exactly `stream.destroy()` on the wrapped source. -/
def Passthrough.destroy (p : Passthrough V E) : Passthrough V E :=
  { p with source := p.source.destroy }

/-- `Middleware.prototype.wrapOpStreams`: wrap every stream in a bulk
subscribe result map. -/
def Middleware.wrapOpStreams (m : Middleware V E)
    (streams : List (String × List (String × OpStream V))) :
    List (String × List (String × Passthrough V E)) :=
  streams.map (fun cPair =>
    (cPair.1, cPair.2.map (fun dPair =>
      (dPair.1, m.wrapOpStream (some cPair.1) (some dPair.1) dPair.2))))

/-- `Middleware.prototype.filterQueryResults`: run the doc filters over each
query result (each result element carries its docName); the callback gets
the first error, or the mutated results. -/
def Middleware.filterQueryResults (m : Middleware V E) (collection : Option String)
    (results : List (String × V)) : Except E (List (String × V)) :=
  let outs := results.map
    (fun p => ((m.runDocFilters collection (some p.1) p.2).1, p))
  match firstErr (outs.map (fun q =>
      match q.1 with | .error e => some e | .ok _ => none)) with
  | some e => .error e
  | none => .ok (outs.map (fun q =>
      (q.2.1, match q.1 with | .ok v => v | .error _ => q.2.2)))

/-- A bulk result map: collection -> docName -> snapshot. -/
def BulkData (V : Type) : Type := List (String × List (String × V))

/-- One scheduler event in a `runBulkDocFilters` execution.  The loop body
increments the work counter (`launch`) and starts one per-document filter
run; each run later fires its completion callback (`complete`, carrying its
error or success); after the loop the trailing `done()` runs (`finalDone`).
Per-document runs complete in an arbitrary order relative to each other and
to the trailing `done()`; a trace records one interleaving. -/
inductive BulkEv (E : Type) where
  | launch
  | complete (res : Option E)
  | finalDone

/-- Number of `launch` events. -/
def nLaunch : List (BulkEv E) → Nat
  | [] => 0
  | .launch :: r => nLaunch r + 1
  | .complete _ :: r => nLaunch r
  | .finalDone :: r => nLaunch r

/-- Number of `complete` events. -/
def nComplete : List (BulkEv E) → Nat
  | [] => 0
  | .launch :: r => nComplete r
  | .complete _ :: r => nComplete r + 1
  | .finalDone :: r => nComplete r

/-- Number of `finalDone` events. -/
def nFinal : List (BulkEv E) → Nat
  | [] => 0
  | .launch :: r => nFinal r
  | .complete _ :: r => nFinal r
  | .finalDone :: r => nFinal r + 1

/-- The completion outcomes of a trace, in completion order. -/
def comps : List (BulkEv E) → List (Option E)
  | [] => []
  | .launch :: r => comps r
  | .complete res :: r => res :: comps r
  | .finalDone :: r => comps r

/-- A completion can only fire after its run was launched: along the trace
the number of completions never exceeds the number of launches.  The
counters accumulate launches/completions seen so far. -/
def prefixCountsOK : Nat → Nat → List (BulkEv E) → Bool
  | _, _, [] => true
  | l, c, .launch :: r => prefixCountsOK (l + 1) c r
  | l, c, .complete _ :: r => decide (c + 1 ≤ l) && prefixCountsOK l (c + 1) r
  | l, c, .finalDone :: r => prefixCountsOK l c r

/-- The trailing `done()` runs after the loop, hence after all launches. -/
def finalAfterLaunches (k : Nat) : Nat → List (BulkEv E) → Bool
  | _, [] => true
  | l, .launch :: r => finalAfterLaunches k (l + 1) r
  | l, .complete _ :: r => finalAfterLaunches k l r
  | l, .finalDone :: r => decide (l = k) && finalAfterLaunches k l r

/-- A valid interleaving for a bulk run over k documents: k launches, k
completions, exactly one trailing done, completions never ahead of
launches, and the trailing done after all launches. -/
def validTrace (k : Nat) (t : List (BulkEv E)) : Bool :=
  decide (nLaunch t = k) && decide (nComplete t = k) && decide (nFinal t = 1) &&
    prefixCountsOK 0 0 t && finalAfterLaunches k 0 t

/-- The closure state of `runBulkDocFilters`: the `work` counter, whether
the callback handle is still live (`callback` not yet nulled), and the
callback invocations made so far, in order (error calls carry the error,
the success call carries the data map). -/
structure BulkState (V E : Type) where
  work : Nat
  alive : Bool
  calls : List (Except E (BulkData V))

/-- `done()`: decrement work; when it reaches zero and the callback handle
is live, deliver success with the (in-place filtered) data map. -/
def bulkDone (data : BulkData V) (s : BulkState V E) : BulkState V E :=
  let w := s.work - 1
  if w = 0 && s.alive then
    { work := w, alive := s.alive, calls := s.calls ++ [.ok data] }
  else
    { s with work := w }

/-- The completion callback of one per-document filter run: on an error,
if the callback handle is live, deliver the error and consume the handle;
then `done()`. -/
def bulkHandle (data : BulkData V) (s : BulkState V E) (res : Option E) :
    BulkState V E :=
  let s1 :=
    match res with
    | some e =>
        if s.alive then { s with alive := false, calls := s.calls ++ [.error e] }
        else s
    | none => s
  bulkDone data s1

/-- One scheduler event of the bulk run. -/
def bulkStep (data : BulkData V) (s : BulkState V E) : BulkEv E → BulkState V E
  | .launch => { s with work := s.work + 1 }
  | .complete res => bulkHandle data s res
  | .finalDone => bulkDone data s

/-- Run a whole interleaving. -/
def bulkRun (data : BulkData V) (s : BulkState V E) : List (BulkEv E) → BulkState V E
  | [] => s
  | ev :: rest => bulkRun data (bulkStep data s ev) rest

/-- Initial closure state: `var work = 1`, live callback, nothing called. -/
def bulkInit : BulkState V E := { work := 1, alive := true, calls := [] }

/-- The per-document filter outcomes of a bulk data map, in map order
(the error of each `runDocFilters` run, or none on success). -/
def Middleware.bulkOutcomes (m : Middleware V E) (data : BulkData V) :
    List (Option E) :=
  (data.map (fun cPair => cPair.2.map (fun dPair =>
    match (m.runDocFilters (some cPair.1) (some dPair.1) dPair.2).1 with
    | .error e => some e
    | .ok _ => none))).flatten

/-- The data map after every document went through the doc filters (the
in-place mutation that the success callback observes; on a per-document
error the entry keeps its last value, which the success path never sees). -/
def Middleware.bulkFiltered (m : Middleware V E) (data : BulkData V) :
    BulkData V :=
  data.map (fun cPair => (cPair.1, cPair.2.map (fun dPair =>
    (dPair.1,
      match (m.runDocFilters (some cPair.1) (some dPair.1) dPair.2).1 with
      | .ok v => v
      | .error _ => dPair.2))))

/-- The single outcome `runBulkDocFilters` delivers: the first per-document
error (in completion order; here the in-order schedule), or success with
the filtered map.  The event-level behaviour over arbitrary completion
orders is `bulkRun` above. -/
def Middleware.runBulkDocFilters (m : Middleware V E) (data : BulkData V) :
    Except E (BulkData V) :=
  match firstErr (m.bulkOutcomes data) with
  | some e => .error e
  | none => .ok (m.bulkFiltered data)

/-- `bulkFetchRequestsEmpty`: true when every collection maps to an empty
docName list. -/
def bulkFetchRequestsEmpty (requests : List (String × List String)) : Bool :=
  requests.all (fun cPair => cPair.2.isEmpty)

/-- The session agent.  `connectCalled` is the `_connectCalled` flag set
only by a `connect` trigger that completed without error.  `connectTime`
is the creation timestamp. -/
structure UserAgent (V E : Type) where
  middleware : Middleware V E
  connectTime : Nat := 0
  connectCalled : Bool := false

/-- The usage-fault message thrown by `_trigger`. -/
def usageFault (action : String) : String :=
  "UserAgent did not trigger connect before calling method " ++ action

/-- The gate at the top of `UserAgent.prototype._trigger`: every action
other than `connect` throws synchronously unless `_connectCalled` is set. -/
def UserAgent.triggerCheck (agent : UserAgent V E) (action : String) :
    Option String :=
  if action ≠ "connect" && !agent.connectCalled then some (usageFault action)
  else none

/-- How a UserAgent method ends: a synchronous usage fault thrown by
`_trigger`, or a value delivered through the method's callback. -/
inductive OpOut (α : Type) where
  | fault (msg : String)
  | cb (a : α)
deriving DecidableEq

/-- One instrumented run of a UserAgent method: its outcome plus how many
middleware steps ran, how many backend operations were invoked and how many
doc/op filter invocations happened. -/
structure OpRun (α : Type) where
  result : OpOut α
  middlewareSteps : Nat
  backendCalls : Nat
  filterSteps : Nat

/-- A run that halted at the `_trigger` gate: nothing below it ran. -/
def faultRun {α : Type} (msg : String) : OpRun α :=
  { result := .fault msg, middlewareSteps := 0, backendCalls := 0, filterSteps := 0 }

/-- `UserAgent.prototype.connect`: triggers `connect`; the callback sets
`_connectCalled` only when the trigger completed without error, and passes
the error on.  Returns (error, updated agent). -/
def UserAgent.connect (agent : UserAgent V E) (stream initialReq : Option V) :
    Option E × UserAgent V E :=
  match (agent.middleware.triggerOutcome "connect" none none
      { stream := stream, initialReq := initialReq }).1 with
  | .err e => (some e, agent)
  | .ok _ _ => (none, { agent with connectCalled := true })

/-- `UserAgent.prototype.fetch`: trigger `fetch`; re-read collection and
docName from the rewritten request; fetch from the backend; when a snapshot
exists run the doc filters on it, otherwise deliver the null snapshot
directly. -/
def UserAgent.fetch (agent : UserAgent V E) (collection docName : String) :
    OpRun (Except E (Option V)) :=
  match agent.triggerCheck "fetch" with
  | some msg => faultRun msg
  | none =>
    let m := agent.middleware
    match m.triggerOutcome "fetch" (some collection) (some docName) {} with
    | (.err e, tr) =>
      { result := .cb (.error e), middlewareSteps := tr.length,
        backendCalls := 0, filterSteps := 0 }
    | (.ok _ req, tr) =>
      match m.backend.fetch req.collection req.docName with
      | .error e =>
        { result := .cb (.error e), middlewareSteps := tr.length,
          backendCalls := 1, filterSteps := 0 }
      | .ok none =>
        { result := .cb (.ok none), middlewareSteps := tr.length,
          backendCalls := 1, filterSteps := 0 }
      | .ok (some data) =>
        let out := m.runDocFilters req.collection req.docName data
        { result := .cb (match out.1 with
            | .error e => .error e
            | .ok v => .ok (some v)),
          middlewareSteps := tr.length, backendCalls := 1, filterSteps := out.2 }

/-- `UserAgent.prototype.bulkFetch`: trigger `bulk fetch`; re-read the
request map from the rewritten request; if every collection's docName list
is empty complete with an empty map without touching the backend; otherwise
bulk-fetch and run the bulk doc-filter fan-out. -/
def UserAgent.bulkFetch (agent : UserAgent V E)
    (requests : List (String × List String)) : OpRun (Except E (BulkData V)) :=
  match agent.triggerCheck "bulk fetch" with
  | some msg => faultRun msg
  | none =>
    let m := agent.middleware
    match m.triggerOutcome "bulk fetch" none none { requests := some requests } with
    | (.err e, tr) =>
      { result := .cb (.error e), middlewareSteps := tr.length,
        backendCalls := 0, filterSteps := 0 }
    | (.ok _ req, tr) =>
      let requests := req.requests.getD []
      if bulkFetchRequestsEmpty requests then
        { result := .cb (.ok []), middlewareSteps := tr.length,
          backendCalls := 0, filterSteps := 0 }
      else
        match m.backend.bulkFetch requests with
        | .error e =>
          { result := .cb (.error e), middlewareSteps := tr.length,
            backendCalls := 1, filterSteps := 0 }
        | .ok data =>
          { result := .cb (m.runBulkDocFilters data),
            middlewareSteps := tr.length, backendCalls := 1, filterSteps := 0 }

/-- `UserAgent.prototype.getOps`: trigger `get ops`; the backend call uses
the rewritten collection/docName but the caller's original start/end bounds
(the source passes the closure locals `start`, `end`, never `action.start`
or `action.end`); the op-filter pass uses the caller's original
collection/docName (the locals are never reassigned from the request). -/
def UserAgent.getOps (agent : UserAgent V E) (collection docName : String)
    (start stop : Option Nat) : OpRun (Except E (List V)) :=
  match agent.triggerCheck "get ops" with
  | some msg => faultRun msg
  | none =>
    let m := agent.middleware
    match m.triggerOutcome "get ops" (some collection) (some docName)
        { start := start, stop := stop } with
    | (.err e, tr) =>
      { result := .cb (.error e), middlewareSteps := tr.length,
        backendCalls := 0, filterSteps := 0 }
    | (.ok _ req, tr) =>
      match m.backend.getOps req.collection req.docName start stop with
      | .error e =>
        { result := .cb (.error e), middlewareSteps := tr.length,
          backendCalls := 1, filterSteps := 0 }
      | .ok results =>
        let out := m.runOpFilters (some collection) (some docName) results
        { result := .cb out.1, middlewareSteps := tr.length,
          backendCalls := 1, filterSteps := out.2 }

/-- `UserAgent.prototype.subscribe`: trigger `subscribe`; re-read
collection/docName/version from the rewritten request; subscribe on the
backend and hand back the wrapped op stream. -/
def UserAgent.subscribe (agent : UserAgent V E) (collection docName : String)
    (version : Option Nat) : OpRun (Except E (Passthrough V E)) :=
  match agent.triggerCheck "subscribe" with
  | some msg => faultRun msg
  | none =>
    let m := agent.middleware
    match m.triggerOutcome "subscribe" (some collection) (some docName)
        { version := version } with
    | (.err e, tr) =>
      { result := .cb (.error e), middlewareSteps := tr.length,
        backendCalls := 0, filterSteps := 0 }
    | (.ok _ req, tr) =>
      match m.backend.subscribe req.collection req.docName req.version with
      | .error e =>
        { result := .cb (.error e), middlewareSteps := tr.length,
          backendCalls := 1, filterSteps := 0 }
      | .ok stream =>
        { result := .cb (.ok (m.wrapOpStream req.collection req.docName stream)),
          middlewareSteps := tr.length, backendCalls := 1, filterSteps := 0 }

/-- `UserAgent.prototype.bulkSubscribe`: trigger `bulk subscribe`; re-read
the request map; bulk subscribe and wrap every returned stream. -/
def UserAgent.bulkSubscribe (agent : UserAgent V E)
    (requests : List (String × List (String × Nat))) :
    OpRun (Except E (List (String × List (String × Passthrough V E)))) :=
  match agent.triggerCheck "bulk subscribe" with
  | some msg => faultRun msg
  | none =>
    let m := agent.middleware
    match m.triggerOutcome "bulk subscribe" none none
        { bsRequests := some requests } with
    | (.err e, tr) =>
      { result := .cb (.error e), middlewareSteps := tr.length,
        backendCalls := 0, filterSteps := 0 }
    | (.ok _ req, tr) =>
      let requests := req.bsRequests.getD []
      match m.backend.bulkSubscribe requests with
      | .error e =>
        { result := .cb (.error e), middlewareSteps := tr.length,
          backendCalls := 1, filterSteps := 0 }
      | .ok streams =>
        { result := .cb (.ok (m.wrapOpStreams streams)),
          middlewareSteps := tr.length, backendCalls := 1, filterSteps := 0 }

/-- `UserAgent.prototype.fetchAndSubscribe`: trigger `fetch`, then trigger
`subscribe` with the rewritten collection/docName of the first request;
invoke the backend's combined operation with the second request's
collection/docName; filter the snapshot and wrap the stream. -/
def UserAgent.fetchAndSubscribe (agent : UserAgent V E)
    (collection docName : String) :
    OpRun (Except E (V × Passthrough V E)) :=
  match agent.triggerCheck "fetch" with
  | some msg => faultRun msg
  | none =>
    let m := agent.middleware
    match m.triggerOutcome "fetch" (some collection) (some docName) {} with
    | (.err e, tr1) =>
      { result := .cb (.error e), middlewareSteps := tr1.length,
        backendCalls := 0, filterSteps := 0 }
    | (.ok _ req1, tr1) =>
      match m.triggerOutcome "subscribe" req1.collection req1.docName {} with
      | (.err e, tr2) =>
        { result := .cb (.error e), middlewareSteps := tr1.length + tr2.length,
          backendCalls := 0, filterSteps := 0 }
      | (.ok _ req2, tr2) =>
        match m.backend.fetchAndSubscribe req2.collection req2.docName with
        | .error e =>
          { result := .cb (.error e),
            middlewareSteps := tr1.length + tr2.length,
            backendCalls := 1, filterSteps := 0 }
        | .ok (data, stream) =>
          let out := m.runDocFilters req2.collection req2.docName data
          { result := .cb (match out.1 with
              | .error e => .error e
              | .ok v => .ok (v, m.wrapOpStream req2.collection req2.docName stream)),
            middlewareSteps := tr1.length + tr2.length,
            backendCalls := 1, filterSteps := out.2 }

/-- `UserAgent.prototype.submit`: trigger `submit`; re-read collection,
docName, opData and the channel prefix from the rewritten request; submit on
the backend; trigger `after submit`; the final callback receives the
after-submit error (if any) together with the committed version and ops. -/
def UserAgent.submit (agent : UserAgent V E) (collection docName : String)
    (opData : Option V) (options : SubmitOptions V) :
    OpRun (Option E × Nat × List V) :=
  match agent.triggerCheck "submit" with
  | some msg => faultRun msg
  | none =>
    let m := agent.middleware
    match m.triggerOutcome "submit" (some collection) (some docName)
        { opData := opData, channelPre := none } with
    | (.err e, tr1) =>
      { result := .cb (some e, 0, []), middlewareSteps := tr1.length,
        backendCalls := 0, filterSteps := 0 }
    | (.ok _ req, tr1) =>
      let options := { options with channelPre := req.channelPre }
      match m.backend.submit req.collection req.docName req.opData options with
      | .error e =>
        { result := .cb (some e, 0, []), middlewareSteps := tr1.length,
          backendCalls := 1, filterSteps := 0 }
      | .ok (v, ops, snapshot) =>
        match m.triggerOutcome "after submit" req.collection req.docName
            { opData := req.opData, snapshot := snapshot } with
        | (.err e, tr2) =>
          { result := .cb (some e, v, ops),
            middlewareSteps := tr1.length + tr2.length,
            backendCalls := 1, filterSteps := 0 }
        | (.ok _ _, tr2) =>
          { result := .cb (none, v, ops),
            middlewareSteps := tr1.length + tr2.length,
            backendCalls := 1, filterSteps := 0 }

/-- `UserAgent.prototype.queryFetch`: triggers the `query` action; re-reads
collection and query from the rewritten request but passes the caller's
original options to the backend (the source passes the closure local
`options`, never `action.options`); existing results go through the query
result filter with the rewritten collection. -/
def UserAgent.queryFetch (agent : UserAgent V E) (collection : String)
    (query options : Option V) :
    OpRun (Except E (Option (List (String × V)) × Option V)) :=
  match agent.triggerCheck "query" with
  | some msg => faultRun msg
  | none =>
    let m := agent.middleware
    match m.triggerOutcome "query" (some collection) none
        { query := query, fetchFlag := some true, options := options } with
    | (.err e, tr) =>
      { result := .cb (.error e), middlewareSteps := tr.length,
        backendCalls := 0, filterSteps := 0 }
    | (.ok _ req, tr) =>
      match m.backend.queryFetch req.collection req.query options with
      | .error e =>
        { result := .cb (.error e), middlewareSteps := tr.length,
          backendCalls := 1, filterSteps := 0 }
      | .ok (none, extra) =>
        { result := .cb (.ok (none, extra)), middlewareSteps := tr.length,
          backendCalls := 1, filterSteps := 0 }
      | .ok (some results, extra) =>
        { result := .cb (match m.filterQueryResults req.collection results with
            | .error e => .error e
            | .ok results' => .ok (some results', extra)),
          middlewareSteps := tr.length, backendCalls := 1, filterSteps := 0 }

/-- The wrapped query emitter handed back by `UserAgent.prototype.query`
(the live diff re-filtering is not modelled; `data` is the in-place filtered
initial result). -/
structure WrappedEmitter (V : Type) where
  data : List (String × V)
  extra : Option V

/-- `UserAgent.prototype.query`: triggers the `query` action; re-reads
collection and query from the rewritten request but passes the caller's
original options; filters the emitter's initial data and wraps the
emitter. -/
def UserAgent.query (agent : UserAgent V E) (collection : String)
    (query options : Option V) : OpRun (Except E (WrappedEmitter V)) :=
  match agent.triggerCheck "query" with
  | some msg => faultRun msg
  | none =>
    let m := agent.middleware
    match m.triggerOutcome "query" (some collection) none
        { query := query, options := options } with
    | (.err e, tr) =>
      { result := .cb (.error e), middlewareSteps := tr.length,
        backendCalls := 0, filterSteps := 0 }
    | (.ok _ req, tr) =>
      match m.backend.query req.collection req.query options with
      | .error e =>
        { result := .cb (.error e), middlewareSteps := tr.length,
          backendCalls := 1, filterSteps := 0 }
      | .ok emitter =>
        { result := .cb (match m.filterQueryResults req.collection emitter.data with
            | .error e => .error e
            | .ok data => .ok { data := data, extra := emitter.extra }),
          middlewareSteps := tr.length, backendCalls := 1, filterSteps := 0 }

/-! Concrete fixtures used by the witness and counterexample evaluations
below.  They instantiate V and E at small decidable types. -/

/-- A trivial backend over Nat snapshots and String errors. -/
def natBackend : Backend Nat String :=
  { fetchAndSubscribe := fun _ _ => .error "unused"
    submit := fun _ _ _ _ => .error "unused" }

/-- A middleware object with no registered middleware and no filters. -/
def natMiddleware : Middleware Nat String := { backend := natBackend }

/-- A session agent that has not connected yet. -/
def natAgentOff : UserAgent Nat String := { middleware := natMiddleware }

/-- A session agent after a successful connect. -/
def natAgentOn : UserAgent Nat String :=
  { middleware := natMiddleware, connectCalled := true }

/-- A vetoing arity-2 middleware entry. -/
def mwVeto : MwFn Nat String := .withNext fun r => (r, some "veto")

/-- A middleware object whose action list for "x" holds the vetoing entry. -/
def vetoMiddleware : Middleware Nat String :=
  { backend := natBackend
    methods := fun a => if a = "x" then [mwVeto] else [] }

/-- A request labelled with action "x". -/
def reqX : Request Nat := { action := "x" }

/-- Filter fixtures: increment, veto, add ten. -/
def fltInc : Flt Nat String := fun _ _ n => (n + 1, none)

/-- A vetoing filter. -/
def fltBoom : Flt Nat String := fun _ _ n => (n, some "boom")

/-- A filter adding ten. -/
def fltTen : Flt Nat String := fun _ _ n => (n + 10, none)

/-- A one-document bulk data map. -/
def bulkDataW : BulkData Nat := [("c", [("d", 0)])]

/-- A bulk fan-out interleaving whose single completion errors. -/
def bulkTraceW : List (BulkEv String) :=
  [.launch, .complete (some "e"), .finalDone]

/-- An echoing backend for the getOps dataflow counterexample: getOps
returns the four arguments it received, rendered as strings. -/
def cexBackend : Backend String String :=
  { getOps := fun c d s e =>
      .ok [c.getD "-", d.getD "-", toString (s.getD 0), toString (e.getD 0)]
    fetchAndSubscribe := fun _ _ => .error "unused"
    submit := fun _ _ _ _ => .error "unused" }

/-- A middleware entry rewriting collection, docName and the version
bounds of the request. -/
def cexRewrite : MwFn String String :=
  .withNext fun r =>
    ({ r with
        collection := some "C2"
        docName := some "D2"
        start := some 7
        stop := some 8 }, none)

/-- An op filter that appends the collection/docName it was invoked with to
the op array, exposing which names the filter pass received. -/
def cexOpFilter : Flt (List String) String :=
  fun c d ops => (ops ++ [c.getD "-", d.getD "-"], none)

/-- Middleware combining the rewriting entry (on every action) with the
echoing op filter. -/
def cexMiddleware : Middleware String String :=
  { backend := cexBackend
    methods := fun _ => [cexRewrite]
    opFilters := [cexOpFilter] }

/-- A connected agent over the echoing middleware. -/
def cexAgent : UserAgent String String :=
  { middleware := cexMiddleware, connectCalled := true }

/-! Helper lemmas. -/

/-- The `_trigger` gate passes for a connected agent. -/
theorem triggerCheck_connected (agent : UserAgent V E) (action : String)
    (h : agent.connectCalled = true) : agent.triggerCheck action = none := by
  simp [UserAgent.triggerCheck, h]

/-- The `_trigger` gate throws for a non-connect action on an unconnected
agent. -/
theorem triggerCheck_off (agent : UserAgent V E) (action : String)
    (hne : action ≠ "connect") (h : agent.connectCalled = false) :
    agent.triggerCheck action = some (usageFault action) := by
  simp [UserAgent.triggerCheck, h, hne]

/-- A chain prefix that completed cleanly: the run of the whole list
continues with the rest of the list from the request the prefix produced. -/
theorem runMethodGo_append (backend : Backend V E) :
    ∀ (pre rest : List (MwFn V E)) (r req : Request V),
      runMethodGo backend pre r = (.ok backend req, pre) →
      runMethodGo backend (pre ++ rest) r =
        ((runMethodGo backend rest req).1,
          pre ++ (runMethodGo backend rest req).2) := by
  intro pre
  induction pre with
  | nil =>
    intro rest r req h
    simp only [runMethodGo, Prod.mk.injEq, MethodResult.ok.injEq] at h
    obtain ⟨⟨-, rfl⟩, -⟩ := h
    simp
  | cons mw pre' ih =>
    intro rest r req h
    simp only [runMethodGo, List.cons_append] at h ⊢
    revert h
    rcases runStep mw r with ⟨r', e?⟩
    intro h
    cases e? with
    | none =>
      simp only [Prod.mk.injEq, List.cons.injEq] at h
      obtain ⟨h1, -, h2⟩ := h
      have hpre : runMethodGo backend pre' r' = (.ok backend req, pre') := by
        rw [← Prod.mk.eta (p := runMethodGo backend pre' r'), h1, h2]
      simp only [List.append_eq, ih rest r' req hpre]
    | some e =>
      simp only [Prod.mk.injEq, List.cons.injEq] at h
      exact absurd h.1 (by simp)

/-- A run of the whole chain that delivered `(null, backend, request)`
executed every entry of the list, in order. -/
theorem runMethodGo_ok (backend : Backend V E) :
    ∀ (ms : List (MwFn V E)) (r : Request V) (b : Backend V E) (req : Request V),
      (runMethodGo backend ms r).1 = .ok b req →
      b = backend ∧ (runMethodGo backend ms r).2 = ms := by
  intro ms
  induction ms with
  | nil =>
    intro r b req h
    simp only [runMethodGo, MethodResult.ok.injEq] at h
    exact ⟨h.1.symm, rfl⟩
  | cons mw rest ih =>
    intro r b req h
    simp only [runMethodGo] at h ⊢
    revert h
    rcases runStep mw r with ⟨r', e?⟩
    intro h
    cases e? with
    | none =>
      obtain ⟨hb, htr⟩ := ih r' b req h
      exact ⟨hb, by simp [htr]⟩
    | some e => simp at h

/-- A filter-chain prefix that completed cleanly: the run of the whole list
continues with the rest of the list from the data the prefix produced. -/
theorem runFiltersGo_append :
    ∀ (pre rest : List (Flt D E)) (c d : Option String) (x y : D),
      runFiltersGo pre c d x = (.ok y, pre.length) →
      runFiltersGo (pre ++ rest) c d x =
        ((runFiltersGo rest c d y).1, (runFiltersGo rest c d y).2 + pre.length) := by
  intro pre
  induction pre with
  | nil =>
    intro rest c d x y h
    simp only [runFiltersGo, Prod.mk.injEq, Except.ok.injEq, List.length_nil] at h
    obtain ⟨rfl, -⟩ := h
    simp
  | cons f pre' ih =>
    intro rest c d x y h
    simp only [runFiltersGo, List.cons_append, List.length_cons] at h ⊢
    revert h
    rcases f c d x with ⟨x', e?⟩
    intro h
    cases e? with
    | none =>
      simp only [Prod.mk.injEq] at h
      obtain ⟨h1, h2⟩ := h
      have h2' : (runFiltersGo pre' c d x').2 = pre'.length :=
        Nat.succ_injective h2
      have hpre : runFiltersGo pre' c d x' = (.ok y, pre'.length) := by
        rw [← Prod.mk.eta (p := runFiltersGo pre' c d x'), h1, h2']
      simp only [List.append_eq, ih rest c d x' y hpre, Prod.mk.injEq]
      exact ⟨trivial, by omega⟩
    | some e =>
      simp only [Prod.mk.injEq] at h
      exact absurd h.1 (by simp)

/-- A filter-chain run that delivered `(null, data)` invoked every filter of
the list. -/
theorem runFiltersGo_ok_len :
    ∀ (fs : List (Flt D E)) (c d : Option String) (x y : D) (n : Nat),
      runFiltersGo fs c d x = (.ok y, n) → n = fs.length := by
  intro fs
  induction fs with
  | nil =>
    intro c d x y n h
    simp only [runFiltersGo, Prod.mk.injEq] at h
    exact h.2.symm
  | cons f rest ih =>
    intro c d x y n h
    simp only [runFiltersGo, List.length_cons] at h ⊢
    revert h
    rcases f c d x with ⟨x', e?⟩
    intro h
    cases e? with
    | none =>
      simp only [Prod.mk.injEq] at h
      obtain ⟨h1, h2⟩ := h
      have hpre : runFiltersGo rest c d x' = (.ok y, (runFiltersGo rest c d x').2) := by
        rw [← Prod.mk.eta (p := runFiltersGo rest c d x'), h1]
      have := ih c d x' y _ hpre
      omega
    | some e =>
      simp only [Prod.mk.injEq] at h
      exact absurd h.1 (by simp)

/-- The passthrough transform loop is a map: one forwarded entry per
incoming event, in event order, independent of earlier outcomes. -/
theorem passthroughProcess_eq (m : Middleware V E) (c d : Option String) :
    ∀ (evs : List V) (acc : List (StreamEntry V E)),
      passthroughProcess m c d evs acc
        = acc ++ evs.map (streamTransformOne m c d) := by
  intro evs
  induction evs with
  | nil => intro acc; simp [passthroughProcess]
  | cons e rest ih =>
    intro acc
    simp [passthroughProcess, ih]

/-- A trace with no launch, no completion and no trailing done is empty. -/
theorem bulkEv_nil (t : List (BulkEv E)) (h1 : nLaunch t = 0)
    (h2 : nComplete t = 0) (h3 : nFinal t = 0) : t = [] := by
  cases t with
  | nil => rfl
  | cons ev r =>
    cases ev <;> simp [nLaunch, nComplete, nFinal] at h1 h2 h3

/-! Claims. -/

/-- C9: for every trigger call - any middleware object (including one with
zero registered middleware), any action, any arguments - nothing is
delivered on the synchronous turn of the caller (running the trigger with
zero scheduler turns yields nothing), and the callback value (the full
runMethod outcome on the built request) is delivered on the next turn. -/
theorem claim_C9 (m : Middleware V E) (action : String)
    (collection docName : Option String) (request : Request V) :
    Proc.runFor 0 (m.triggerProc action collection docName request) = none
  ∧ Proc.runFor 1 (m.triggerProc action collection docName request)
      = some (m.runMethod (m.buildRequest action collection docName request)) :=
  ⟨rfl, rfl⟩

/-- C5: a wrapped op stream receiving events e1..en forwards exactly n
entries in the same order; entry i is the transform of event i; and each
transformed entry is either the filtered event (pushed as the head of the
filtered singleton array) after a successful op-filter pass, or an error
wrapper carrying the filter chain's error - never both, never omitted; the
per-event outcome does not influence later entries. -/
theorem claim_C5 (m : Middleware V E) (collection docName : Option String)
    (stream : OpStream V) :
    ((m.wrapOpStream collection docName stream).pushed.length
        = stream.events.length)
  ∧ (∀ i : Nat,
      (m.wrapOpStream collection docName stream).pushed[i]?
        = (stream.events[i]?).map (streamTransformOne m collection docName))
  ∧ (∀ data : V,
      (∃ e, (m.runOpFilters collection docName [data]).1 = .error e ∧
          streamTransformOne m collection docName data = .errorWrapper e)
    ∨ (∃ filtered, (m.runOpFilters collection docName [data]).1 = .ok filtered ∧
          streamTransformOne m collection docName data = .event filtered.head?)) := by
  refine ⟨?_, ?_, ?_⟩
  · simp [Middleware.wrapOpStream, passthroughProcess_eq]
  · intro i
    simp [Middleware.wrapOpStream, passthroughProcess_eq]
  · intro data
    unfold streamTransformOne
    cases h : (m.runOpFilters collection docName [data]).1 with
    | error e => exact Or.inl ⟨e, rfl, rfl⟩
    | ok filtered => exact Or.inr ⟨filtered, rfl, rfl⟩

/-- C7 counterexample: the claim says a second destroy() on the wrapper
must not propagate another destroy to the source.  On the code, each call
to the wrapper's destroy invokes `stream.destroy()` unconditionally: after
two destroy() calls on a freshly wrapped stream the source has been
destroyed twice, not once. -/
theorem claim_C7_cex :
    ((natMiddleware.wrapOpStream none none {}).destroy.destroy).source.destroyCount = 2
  ∧ 2 ≠ 1 :=
  ⟨rfl, by decide⟩

/-- C7 amended: `destroy()` on a wrapped stream propagates one destroy to
the underlying source on every call - there is no idempotence guard - so
after k calls the source's destroy has run k times (in particular a second
call destroys the source a second time). -/
theorem claim_C7_amended (m : Middleware V E) (collection docName : Option String)
    (s : OpStream V) (k : Nat) :
    (Passthrough.destroy^[k] (m.wrapOpStream collection docName s)).source.destroyCount
      = s.destroyCount + k := by
  induction k with
  | zero => simp [Middleware.wrapOpStream]
  | succ n ih =>
    rw [Function.iterate_succ_apply']
    simp [Passthrough.destroy, OpStream.destroy, ih]
    omega

/-- C3: a filter chain run over (collection, docName, data) runs its
filters sequentially in registration order: if all n succeed, every filter
was invoked (the invocation count is n) and the callback receives
`(null, data)` with the threaded (mutated) value; if the filter after a
clean prefix of length k-1 signals an error, the run stops after exactly k
invocations - filters k+1..n are never invoked - and the callback receives
`(error, null)`. -/
theorem claim_C3 (fs : List (Flt D E)) (c d : Option String) (x : D) :
    (∀ (y : D) (n : Nat), runFiltersGo fs c d x = (.ok y, n) → n = fs.length)
  ∧ (∀ (pre : List (Flt D E)) (f : Flt D E) (post : List (Flt D E))
        (xk xk' : D) (e : E),
        fs = pre ++ f :: post →
        runFiltersGo pre c d x = (.ok xk, pre.length) →
        f c d xk = (xk', some e) →
        runFiltersGo fs c d x = (.error e, pre.length + 1)) := by
  constructor
  · intro y n h
    exact runFiltersGo_ok_len fs c d x y n h
  · intro pre f post xk xk' e hfs hpre hf
    subst hfs
    rw [runFiltersGo_append pre (f :: post) c d x xk hpre]
    simp only [runFiltersGo, hf, Prod.mk.injEq]
    exact ⟨trivial, by omega⟩

/-- C3 witness: a three-filter chain whose second filter vetoes stops after
two invocations with the veto error. -/
theorem claim_C3_witness :
    runFiltersGo [fltInc, fltBoom, fltTen] none none 0 = (.error "boom", 2) :=
  (claim_C3 [fltInc, fltBoom, fltTen] none none 0).2 [fltInc] fltBoom [fltTen]
    1 1 "boom" rfl rfl rfl

/-- C2: a dispatcher run executes exactly the action-specific list followed
by the all-actions list, in registration order, when it completes - and the
callback then receives `(null, backend, request)`; the first step that
signals an error stops the chain (the executed entries are exactly the
clean prefix plus the erroring step) and the callback receives that error
with no backend/request payload. -/
theorem claim_C2 (m : Middleware V E) (r : Request V) :
    (∀ (b : Backend V E) (req : Request V),
        (m.runMethod r).1 = .ok b req →
        b = m.backend ∧ (m.runMethod r).2 = m.methods r.action ++ m.methods "")
  ∧ (∀ (pre : List (MwFn V E)) (mw : MwFn V E) (post : List (MwFn V E))
        (r1 r2 : Request V) (e : E),
        m.methods r.action ++ m.methods "" = pre ++ mw :: post →
        runMethodGo m.backend pre r = (.ok m.backend r1, pre) →
        runStep mw r1 = (r2, some e) →
        m.runMethod r = (.err e, pre ++ [mw])) := by
  constructor
  · intro b req h
    exact runMethodGo_ok m.backend _ r b req h
  · intro pre mw post r1 r2 e hms hpre hs
    unfold Middleware.runMethod
    rw [hms, runMethodGo_append m.backend pre (mw :: post) r r1 hpre]
    simp only [runMethodGo, hs]

/-- C2 witness: a single vetoing entry registered for action "x" stops the
chain immediately and the callback receives the veto error. -/
theorem claim_C2_witness :
    vetoMiddleware.runMethod reqX = (.err "veto", [mwVeto]) :=
  (claim_C2 vetoMiddleware reqX).2 [] mwVeto [] reqX reqX "veto" rfl rfl rfl

/-- C1: every user-agent operation other than connect, invoked before a
successful connect, halts at the synchronous `_trigger` gate with the usage
fault: the run equals the pure fault run - zero middleware steps, zero
backend calls, zero filter invocations - deterministically for all
arguments; and a connect that completes with an error leaves the agent
unconnected, so the fault still fires afterwards. -/
theorem claim_C1 (agent : UserAgent V E) (h : agent.connectCalled = false)
    (c d : String) (start stop version : Option Nat)
    (v q opts s i : Option V) (freqs : List (String × List String))
    (sreqs : List (String × List (String × Nat))) (sopts : SubmitOptions V) :
    agent.fetch c d = faultRun (usageFault "fetch")
  ∧ agent.bulkFetch freqs = faultRun (usageFault "bulk fetch")
  ∧ agent.getOps c d start stop = faultRun (usageFault "get ops")
  ∧ agent.subscribe c d version = faultRun (usageFault "subscribe")
  ∧ agent.bulkSubscribe sreqs = faultRun (usageFault "bulk subscribe")
  ∧ agent.fetchAndSubscribe c d = faultRun (usageFault "fetch")
  ∧ agent.submit c d v sopts = faultRun (usageFault "submit")
  ∧ agent.queryFetch c q opts = faultRun (usageFault "query")
  ∧ agent.query c q opts = faultRun (usageFault "query")
  ∧ (∀ e : E, (agent.connect s i).1 = some e →
        (agent.connect s i).2.connectCalled = false) := by
  refine ⟨?_, ?_, ?_, ?_, ?_, ?_, ?_, ?_, ?_, ?_⟩
  · simp [UserAgent.fetch, triggerCheck_off agent "fetch" (by decide) h]
  · simp [UserAgent.bulkFetch, triggerCheck_off agent "bulk fetch" (by decide) h]
  · simp [UserAgent.getOps, triggerCheck_off agent "get ops" (by decide) h]
  · simp [UserAgent.subscribe, triggerCheck_off agent "subscribe" (by decide) h]
  · simp [UserAgent.bulkSubscribe,
      triggerCheck_off agent "bulk subscribe" (by decide) h]
  · simp [UserAgent.fetchAndSubscribe,
      triggerCheck_off agent "fetch" (by decide) h]
  · simp [UserAgent.submit, triggerCheck_off agent "submit" (by decide) h]
  · simp [UserAgent.queryFetch, triggerCheck_off agent "query" (by decide) h]
  · simp [UserAgent.query, triggerCheck_off agent "query" (by decide) h]
  · intro e he
    unfold UserAgent.connect at he ⊢
    revert he
    cases (agent.middleware.triggerOutcome "connect" none none
        { stream := s, initialReq := i }).1 with
    | err e' => intro _; exact h
    | ok b r => intro he; simp at he

/-- C1 witness: fetch on a fresh (unconnected) agent faults. -/
theorem claim_C1_witness :
    natAgentOff.fetch "a" "b" = faultRun (usageFault "fetch") :=
  (claim_C1 natAgentOff rfl "a" "b" none none none none none none none none
    [] [] {}).1

/-- C8: a bulkFetch whose middleware-rewritten request map has every
collection mapped to an empty docName list completes with `(null, empty
map)` and never invokes the backend's bulkFetch; when some collection has a
non-empty list the backend is invoked. -/
theorem claim_C8 (agent : UserAgent V E) (requests : List (String × List String))
    (h1 : agent.connectCalled = true)
    (b : Backend V E) (req : Request V) (tr : List (MwFn V E))
    (hm : agent.middleware.triggerOutcome "bulk fetch" none none
        { requests := some requests } = (.ok b req, tr)) :
    (bulkFetchRequestsEmpty (req.requests.getD []) = true →
        (agent.bulkFetch requests).result = .cb (.ok [])
      ∧ (agent.bulkFetch requests).backendCalls = 0)
  ∧ (bulkFetchRequestsEmpty (req.requests.getD []) = false →
        (agent.bulkFetch requests).backendCalls = 1) := by
  have hc := triggerCheck_connected agent "bulk fetch" h1
  constructor
  · intro he
    constructor <;> simp [UserAgent.bulkFetch, hc, hm, he]
  · intro he
    cases hbf : agent.middleware.backend.bulkFetch (req.requests.getD []) with
    | error e => simp [UserAgent.bulkFetch, hc, hm, he, hbf]
    | ok data => simp [UserAgent.bulkFetch, hc, hm, he, hbf]

/-- C8 witness: a request map with one collection and no docNames completes
with the empty map and zero backend calls. -/
theorem claim_C8_witness :
    (natAgentOn.bulkFetch [("c", [])]).result = .cb (.ok [])
  ∧ (natAgentOn.bulkFetch [("c", [])]).backendCalls = 0 :=
  (claim_C8 natAgentOn [("c", [])] rfl _ _ _ rfl).1 rfl

/-- C10: when the middleware chain succeeds and the backend fetch succeeds
with no snapshot, the doc filter chain is never invoked (zero filter
invocations) and the callback receives `(null, null)`. -/
theorem claim_C10 (agent : UserAgent V E) (collection docName : String)
    (h1 : agent.connectCalled = true)
    (b : Backend V E) (req : Request V) (tr : List (MwFn V E))
    (hm : agent.middleware.triggerOutcome "fetch" (some collection)
        (some docName) {} = (.ok b req, tr))
    (hb : agent.middleware.backend.fetch req.collection req.docName = .ok none) :
    (agent.fetch collection docName).result = .cb (.ok none)
  ∧ (agent.fetch collection docName).filterSteps = 0 := by
  have hc := triggerCheck_connected agent "fetch" h1
  constructor <;> simp [UserAgent.fetch, hc, hm, hb]

/-- C10 witness: fetch against a backend that stores nothing delivers
`(null, null)` without invoking any doc filter. -/
theorem claim_C10_witness :
    (natAgentOn.fetch "a" "b").result = .cb (.ok none)
  ∧ (natAgentOn.fetch "a" "b").filterSteps = 0 :=
  claim_C10 natAgentOn "a" "b" rfl _ _ _ rfl rfl

/-- C4 counterexample: with a middleware entry that rewrites collection,
docName and both version bounds, and a backend/op filter that echo the
arguments they receive, getOps calls the backend with the rewritten names
but the caller's ORIGINAL bounds (1 and 2, not the rewritten 7 and 8) and
runs the op-filter pass with the caller's ORIGINAL names (c1/d1, not
C2/D2), contradicting the claim that the rewritten values are used for both
the backend call and the filter pass. -/
theorem claim_C4_cex :
    (cexAgent.getOps "c1" "d1" (some 1) (some 2)).result
      = OpOut.cb (Except.ok ["C2", "D2", "1", "2", "c1", "d1"])
  ∧ ["C2", "D2", "1", "2", "c1", "d1"] ≠ ["C2", "D2", "7", "8", "C2", "D2"] :=
  ⟨rfl, by decide⟩

/-- C4 amended: middleware rewriting is honored as follows.  fetch re-reads
collection and docName from the rewritten request for both the backend call
and the doc-filter pass.  getOps uses the rewritten collection/docName for
the backend call only: the version bounds passed to the backend are the
caller's originals, and the op-filter pass runs with the caller's original
collection/docName.  queryFetch uses the rewritten collection and query for
the backend call but the caller's original options. -/
theorem claim_C4_amended (agent : UserAgent V E) (h1 : agent.connectCalled = true)
    (collection docName : String) (start stop : Option Nat) (q opts : Option V) :
    (∀ (b : Backend V E) (req : Request V) (tr : List (MwFn V E)),
        agent.middleware.triggerOutcome "fetch" (some collection)
            (some docName) {} = (.ok b req, tr) →
        (agent.fetch collection docName).result = .cb
          (match agent.middleware.backend.fetch req.collection req.docName with
            | .error e => .error e
            | .ok none => .ok none
            | .ok (some data) =>
              match (agent.middleware.runDocFilters req.collection req.docName
                  data).1 with
                | .error e => .error e
                | .ok v => .ok (some v)))
  ∧ (∀ (b : Backend V E) (req : Request V) (tr : List (MwFn V E)),
        agent.middleware.triggerOutcome "get ops" (some collection)
            (some docName) { start := start, stop := stop } = (.ok b req, tr) →
        (agent.getOps collection docName start stop).result = .cb
          (match agent.middleware.backend.getOps req.collection req.docName
              start stop with
            | .error e => .error e
            | .ok results =>
              (agent.middleware.runOpFilters (some collection) (some docName)
                  results).1))
  ∧ (∀ (b : Backend V E) (req : Request V) (tr : List (MwFn V E)),
        agent.middleware.triggerOutcome "query" (some collection) none
            { query := q, fetchFlag := some true, options := opts }
          = (.ok b req, tr) →
        (agent.queryFetch collection q opts).result = .cb
          (match agent.middleware.backend.queryFetch req.collection req.query
              opts with
            | .error e => .error e
            | .ok (none, extra) => .ok (none, extra)
            | .ok (some results, extra) =>
              match agent.middleware.filterQueryResults req.collection results with
                | .error e => .error e
                | .ok results' => .ok (some results', extra))) := by
  refine ⟨?_, ?_, ?_⟩
  · intro b req tr hm
    have hc := triggerCheck_connected agent "fetch" h1
    rcases hbf : agent.middleware.backend.fetch req.collection req.docName with
      e | d
    · simp [UserAgent.fetch, hc, hm, hbf]
    · cases d with
      | none => simp [UserAgent.fetch, hc, hm, hbf]
      | some data => simp [UserAgent.fetch, hc, hm, hbf]
  · intro b req tr hm
    have hc := triggerCheck_connected agent "get ops" h1
    cases hbg : agent.middleware.backend.getOps req.collection req.docName
        start stop with
    | error e => simp [UserAgent.getOps, hc, hm, hbg]
    | ok results => simp [UserAgent.getOps, hc, hm, hbg]
  · intro b req tr hm
    have hc := triggerCheck_connected agent "query" h1
    rcases hbq : agent.middleware.backend.queryFetch req.collection req.query
        opts with e | ⟨res, extra⟩
    · simp [UserAgent.queryFetch, hc, hm, hbq]
    · cases res with
      | none => simp [UserAgent.queryFetch, hc, hm, hbq]
      | some results => simp [UserAgent.queryFetch, hc, hm, hbq]

/-- C4 amended witness: with no middleware registered, getOps delivers the
(empty) backend result through the op-filter pass. -/
theorem claim_C4_witness :
    (natAgentOn.getOps "a" "b" none none).result = .cb (.ok []) :=
  ((claim_C4_amended natAgentOn rfl "a" "b" none none none none).2.1
    _ _ _ rfl).trans rfl

/-- `done()` when the decremented counter stays positive: only the counter
changes. -/
theorem bulkDone_alive_pos (data : BulkData V) (s : BulkState V E)
    (hw : ¬s.work - 1 = 0) :
    bulkDone data s = { s with work := s.work - 1 } := by
  simp [bulkDone, hw]

/-- `done()` on a consumed callback handle: only the counter changes. -/
theorem bulkDone_dead (data : BulkData V) (s : BulkState V E)
    (ha : s.alive = false) :
    bulkDone data s = { s with work := s.work - 1 } := by
  simp [bulkDone, ha]

/-- `done()` reaching zero with a live handle delivers the success call. -/
theorem bulkDone_zero_alive (data : BulkData V) (s : BulkState V E)
    (hw : s.work - 1 = 0) (ha : s.alive = true) :
    bulkDone data s
      = { work := 0, alive := true, calls := s.calls ++ [.ok data] } := by
  simp [bulkDone, hw, ha]


/-- The fan-out invariant of `runBulkDocFilters`, over an arbitrary valid
interleaving suffix.  After a history with L launches, C completions and dn
trailing-done events processed (dn is 0 or 1) and no error delivered yet,
the work counter is 1 + L - C - dn; running the remaining events from a
live state appends exactly one call - the first error of the remaining
completion order, or the success call - and from a consumed (dead) state
appends nothing. -/
theorem bulkRun_inv (data : BulkData V) (k : Nat) :
    ∀ (t : List (BulkEv E)) (L C dn : Nat)
      (cs : List (Except E (BulkData V))),
      nLaunch t + L = k →
      nComplete t + C = k →
      nFinal t + dn = 1 →
      prefixCountsOK L C t = true →
      finalAfterLaunches k L t = true →
      C ≤ L →
      (dn = 1 → L = k) →
      C + dn ≤ L →
      ((bulkRun data
          { work := L - C + 1 - dn, alive := true, calls := cs } t).calls
        = cs ++ (match firstErr (comps t) with
            | some e => [.error e]
            | none => [.ok data]))
      ∧ ((bulkRun data
          { work := L - C + 1 - dn, alive := false, calls := cs } t).calls
        = cs) := by
  intro t
  induction t with
  | nil =>
    intro L C dn cs h1 h2 h3 hp hf hCL hD hW
    exfalso
    simp only [nLaunch, nComplete, nFinal] at h1 h2 h3
    have hdn : dn = 1 := by omega
    have hLk := hD hdn
    omega
  | cons ev rest ih =>
    intro L C dn cs h1 h2 h3 hp hf hCL hD hW
    cases ev with
    | launch =>
      simp only [nLaunch] at h1
      simp only [nComplete] at h2
      simp only [nFinal] at h3
      simp only [prefixCountsOK] at hp
      simp only [finalAfterLaunches] at hf
      have h1' : nLaunch rest + (L + 1) = k := by omega
      have hD' : dn = 1 → L + 1 = k := fun hdt => by
        have := hD hdt
        omega
      have hrec := ih (L + 1) C dn cs h1' h2 h3 hp hf (by omega) hD' (by omega)
      have hwork : L - C + 1 - dn + 1 = L + 1 - C + 1 - dn := by omega
      simp only [bulkRun, bulkStep, comps]
      rw [hwork]
      exact hrec
    | complete res =>
      simp only [nLaunch] at h1
      simp only [nComplete] at h2
      simp only [nFinal] at h3
      simp only [prefixCountsOK, Bool.and_eq_true, decide_eq_true_eq] at hp
      obtain ⟨hp1, hp2⟩ := hp
      simp only [finalAfterLaunches] at hf
      have h2' : nComplete rest + (C + 1) = k := by omega
      by_cases hend : C + 1 + dn = L + 1
      · -- the counter reaches zero at this event: it is the last one
        have hdn : dn = 1 := by omega
        have hLk := hD hdn
        have hrest : rest = [] := by
          apply bulkEv_nil <;> omega
        subst hrest
        have hw1 : L - C + 1 - dn = 1 := by omega
        rw [hw1]
        cases res with
        | some e =>
          constructor
          · simp [bulkRun, bulkStep, bulkHandle, bulkDone, comps, firstErr]
          · simp [bulkRun, bulkStep, bulkHandle, bulkDone, comps, firstErr]
        | none =>
          constructor
          · simp [bulkRun, bulkStep, bulkHandle, bulkDone, comps, firstErr]
          · simp [bulkRun, bulkStep, bulkHandle, bulkDone, comps, firstErr]
      · -- more events remain: the decremented counter stays positive
        have hW' : C + 1 + dn ≤ L := by omega
        have hnz : ¬(L - C + 1 - dn) - 1 = 0 := by omega
        have hw : (L - C + 1 - dn) - 1 = L - (C + 1) + 1 - dn := by omega
        have hrec := ih L (C + 1) dn
        cases res with
        | some e =>
          constructor
          · -- live state: the error is delivered here, then nothing more
            show (bulkRun data (bulkHandle data
                { work := L - C + 1 - dn, alive := true,
                  calls := cs } (some e)) rest).calls = _
            rw [show bulkHandle data
                { work := L - C + 1 - dn, alive := true,
                  calls := cs } (some e)
              = bulkDone data
                { work := L - C + 1 - dn, alive := false,
                  calls := cs ++ [.error e] } from by simp [bulkHandle]]
            rw [bulkDone_dead data _ rfl]
            simp only [comps, firstErr]
            have := (hrec (cs ++ [.error e]) h1 h2' h3 hp2 hf (by omega)
              hD hW').2
            rw [hw]
            exact this
          · -- dead state: the handle is consumed, nothing is delivered
            show (bulkRun data (bulkHandle data
                { work := L - C + 1 - dn, alive := false,
                  calls := cs } (some e)) rest).calls = _
            rw [show bulkHandle data
                { work := L - C + 1 - dn, alive := false,
                  calls := cs } (some e)
              = bulkDone data
                { work := L - C + 1 - dn, alive := false,
                  calls := cs } from by simp [bulkHandle]]
            rw [bulkDone_dead data _ rfl]
            have := (hrec cs h1 h2' h3 hp2 hf (by omega) hD hW').2
            rw [hw]
            exact this
        | none =>
          constructor
          · show (bulkRun data (bulkHandle data
                { work := L - C + 1 - dn, alive := true,
                  calls := cs } none) rest).calls = _
            rw [show bulkHandle data
                { work := L - C + 1 - dn, alive := true,
                  calls := cs } none
              = bulkDone data
                { work := L - C + 1 - dn, alive := true,
                  calls := cs } from by simp [bulkHandle]]
            rw [bulkDone_alive_pos data _ hnz]
            simp only [comps, firstErr]
            have := (hrec cs h1 h2' h3 hp2 hf (by omega) hD hW').1
            rw [hw]
            exact this
          · show (bulkRun data (bulkHandle data
                { work := L - C + 1 - dn, alive := false,
                  calls := cs } none) rest).calls = _
            rw [show bulkHandle data
                { work := L - C + 1 - dn, alive := false,
                  calls := cs } none
              = bulkDone data
                { work := L - C + 1 - dn, alive := false,
                  calls := cs } from by simp [bulkHandle]]
            rw [bulkDone_dead data _ rfl]
            have := (hrec cs h1 h2' h3 hp2 hf (by omega) hD hW').2
            rw [hw]
            exact this
    | finalDone =>
      simp only [nLaunch] at h1
      simp only [nComplete] at h2
      simp only [nFinal] at h3
      simp only [prefixCountsOK] at hp
      simp only [finalAfterLaunches, Bool.and_eq_true, decide_eq_true_eq] at hf
      obtain ⟨hLk, hf2⟩ := hf
      have hdn : dn = 0 := by omega
      subst hdn
      by_cases hend : C = L
      · -- the counter reaches zero: the trailing done is the last event
        have hrest : rest = [] := by
          apply bulkEv_nil <;> omega
        subst hrest
        have hw1 : ({ work := L - C + 1 - 0, alive := true, calls := cs } :
            BulkState V E).work - 1 = 0 := by
          show L - C + 1 - 0 - 1 = 0
          omega
        constructor
        · show (bulkRun data (bulkDone data
              { work := L - C + 1 - 0, alive := true, calls := cs }) []).calls = _
          rw [bulkDone_zero_alive data _ hw1 rfl]
          simp [bulkRun, comps, firstErr]
        · show (bulkRun data (bulkDone data
              { work := L - C + 1 - 0, alive := false, calls := cs }) []).calls = _
          rw [bulkDone_dead data _ rfl]
          simp [bulkRun]
      · -- completions remain: the counter stays positive
        have hnz : ¬(L - C + 1 - 0) - 1 = 0 := by omega
        have hw : (L - C + 1 - 0) - 1 = L - C + 1 - 1 := by omega
        have hD' : (1 : Nat) = 1 → L = k := fun _ => hLk
        have hrec := ih L C 1 cs h1 h2 (by omega) hp hf2 hCL hD' (by omega)
        constructor
        · show (bulkRun data (bulkDone data
              { work := L - C + 1 - 0, alive := true, calls := cs }) rest).calls = _
          rw [bulkDone_alive_pos data _ hnz]
          simp only [comps]
          rw [hw]
          exact hrec.1
        · show (bulkRun data (bulkDone data
              { work := L - C + 1 - 0, alive := false, calls := cs }) rest).calls = _
          rw [bulkDone_dead data _ rfl]
          rw [hw]
          exact hrec.2

/-- C6: a bulk doc-filter run over k documents, under any valid
interleaving of the per-document completions (in any order, with the
trailing done anywhere after the launches), invokes the overall callback
exactly once: with the success call `(null, data)` when every completion
succeeded, and with the FIRST error in completion order otherwise - later
completions and errors never invoke the consumed callback again. -/
theorem claim_C6 (data : BulkData V) (k : Nat) (t : List (BulkEv E))
    (h : validTrace k t = true) :
    (bulkRun data bulkInit t).calls
      = match firstErr (comps t) with
        | some e => [Except.error e]
        | none => [Except.ok data] := by
  simp only [validTrace, Bool.and_eq_true, decide_eq_true_eq] at h
  obtain ⟨⟨⟨⟨h1, h2⟩, h3⟩, hp⟩, hf⟩ := h
  have hmain := (bulkRun_inv data k t 0 0 0 [] (by omega) (by omega)
    (by omega) hp hf (by omega) (fun hh => by omega) (by omega)).1
  simpa [bulkInit] using hmain

/-- C6 witness: a one-document trace whose completion errors delivers
exactly that error. -/
theorem claim_C6_witness :
    (bulkRun bulkDataW bulkInit bulkTraceW).calls = [Except.error "e"] :=
  claim_C6 bulkDataW 1 bulkTraceW rfl
